import Mathlib

/-!
Verification of the attested ledger-query subsystem of this MobileCoin
repository slice: the enclave-connection error classifier
(src/fog/enclave_connection/src/error.rs), and the ledger query layer
(key-image checks, watcher timestamp resolution, router aggregation,
untrusted read path) whose observable behaviour is pinned by the
integration tests in src/fog/ledger/server/tests/.
-/

namespace MobileCoin

/-! ## Error classifier, embedded from src/fog/enclave_connection/src/error.rs -/

/-- A grpc status code: grpcio wraps an i32. RESOURCE_EXHAUSTED is code 8. -/
structure RpcStatusCode where
  code : Int
deriving DecidableEq, Repr

/-- grpcio RpcStatusCode RESOURCE_EXHAUSTED (code 8). -/
def RESOURCE_EXHAUSTED : RpcStatusCode := ⟨8⟩

/-- grpcio RpcStatusCode INVALID_ARGUMENT (code 3). -/
def INVALID_ARGUMENT : RpcStatusCode := ⟨3⟩

/-- A grpc RpcStatus: the status code plus the status message.
error.rs reads only the code; the chain-id tests read the message. -/
structure RpcStatus where
  code : RpcStatusCode
  message : String
deriving DecidableEq, Repr

/-- grpcio Error. error.rs distinguishes only the RpcFailure variant (whose
RpcStatus it inspects) from the rest; the other variants of the external
grpcio crate are listed by name, their payloads (never inspected by
error.rs) omitted. -/
inductive GrpcioError
  | Codec
  | CallFailure
  | RpcFailure (status : RpcStatus)
  | RpcFinished
  | RemoteStopped
  | ShutdownFailed
  | BindFail
  | QueueShutdown
  | GoogleAuthenticationFailed
  | InvalidMetadata
deriving DecidableEq, Repr

/-- mc_attest_ake Error. error.rs matches only on whether the variant is
AttestationEvidenceVerification; every other variant of that external crate
is treated uniformly, so they are collapsed into one constructor. -/
inductive AkeError
  | AttestationEvidenceVerification
  | OtherAkeVariant
deriving DecidableEq, Repr

/-- The EnclaveConnection error type of src/fog/enclave_connection/src/error.rs.
The Cipher, InvalidUri and ProtoDecode payloads are never inspected by the
classifier, so they are omitted here. -/
inductive Error
  | Rpc (e : GrpcioError)
  | Ake (e : AkeError)
  | Cipher
  | InvalidUri
  | ProtoDecode
  | Other (msg : String)
deriving DecidableEq, Repr

/-- should_reattest from error.rs: matches Rpc, Ake and Cipher. -/
def should_reattest : Error → Bool
  | Error.Rpc _ => true
  | Error.Ake _ => true
  | Error.Cipher => true
  | _ => false

/-- should_retry from error.rs: RpcFailure retries unless the status code is
RESOURCE_EXHAUSTED; other Rpc, Cipher and ProtoDecode retry; Ake retries
unless the cause is AttestationEvidenceVerification; InvalidUri and Other
never retry. -/
def should_retry : Error → Bool
  | Error.Rpc (GrpcioError.RpcFailure rpc_status) =>
      decide (rpc_status.code ≠ RESOURCE_EXHAUSTED)
  | Error.Rpc _ => true
  | Error.Cipher => true
  | Error.ProtoDecode => true
  | Error.Ake AkeError.AttestationEvidenceVerification => false
  | Error.Ake _ => true
  | Error.InvalidUri => false
  | Error.Other _ => false

/-! ## Watcher timestamp resolution and the ledger query layer

The store, router and watcher-resolver implementations are not part of this
repository slice (only their integration tests are), so the definitions
below are modelled from the spec (sections 4.4 - 4.7) and checked against
the behaviour the tests in src/fog/ledger/server/tests/ pin down. -/

/-- u64::MAX, the sentinel timestamp. -/
def U64MAX : Nat := 2 ^ 64 - 1

/-- mc_api watcher TimestampResultCode (stable numeric values 0..5 on the
wire; compared symbolically here). -/
inductive TimestampResultCode
  | UnusedField
  | TimestampFound
  | WatcherBehind
  | Unavailable
  | WatcherDatabaseError
  | BlockIndexOutOfBounds
deriving DecidableEq, Repr

/-- A signed block timestamp recorded by the watcher: block index, observer
identity, and the signed_at wall-clock value (spec section 3). -/
structure SignedBlockTimestamp where
  block_index : Nat
  signer : Nat
  signed_at : Nat
deriving DecidableEq, Repr

/-- The watcher component's state as the query layer reads it: the recorded
signed block timestamps, and each observer's last-synced height. -/
structure WatcherState where
  records : List SignedBlockTimestamp
  last_synced : List (Nat × Nat)
deriving DecidableEq, Repr

/-- The signed_at values of every record for this block index, in record
order. -/
def sigsFor (w : WatcherState) (bi : Nat) : List Nat :=
  (w.records.filter (fun r => r.block_index == bi)).map (fun r => r.signed_at)

/-- The minimum of a list of timestamps, none for the empty list. -/
def earliest : List Nat → Option Nat
  | [] => none
  | t :: ts =>
    match earliest ts with
    | none => some t
    | some u => some (min t u)

/-- Modelled from the spec: the WatcherTimestampResolver (spec 4.5), whose
implementation is not in this repository slice. Timestamps are not tracked
for the origin block — spec 8 has get_blocks over block 0 return
BlockIndexOutOfBounds with no signer applicable, matching the tests, which
record a signature for block 0 yet observe BlockIndexOutOfBounds there.
Otherwise: the earliest recorded signed_at with TimestampFound when any
signature is on record; else BlockIndexOutOfBounds when the block index is
at or past every observer's synced height; else WatcherBehind when some
observer has not reached it; else Unavailable. -/
def resolve (w : WatcherState) (bi : Nat) : Nat × TimestampResultCode :=
  if bi = 0 then (U64MAX, TimestampResultCode.BlockIndexOutOfBounds)
  else
    match earliest (sigsFor w bi) with
    | some t => (t, TimestampResultCode.TimestampFound)
    | none =>
      if w.last_synced.all (fun p => decide (p.2 ≤ bi)) then
        (U64MAX, TimestampResultCode.BlockIndexOutOfBounds)
      else if w.last_synced.any (fun p => decide (p.2 < bi)) then
        (U64MAX, TimestampResultCode.WatcherBehind)
      else (U64MAX, TimestampResultCode.Unavailable)

/-- A key image, an opaque spend marker (the tests build them from u64). -/
abbrev KeyImage := Nat

/-- One shard's view for key-image queries: which key images are recorded as
spent (with the spending block index) and its locally known ledger height. -/
structure Shard where
  spent : List (KeyImage × Nat)
  num_blocks : Nat
deriving DecidableEq, Repr

/-- Modelled from the spec: the shard's oblivious lookup collaborator
(spec 6), check(image) returning the spending block index or none. -/
def lookup_spent (s : Shard) (ki : KeyImage) : Option Nat :=
  (s.spent.find? (fun p => p.1 == ki)).map (fun p => p.2)

/-- PerKeyImageResult (spec 3). -/
structure KeyImageResult where
  key_image : KeyImage
  spent_at : Option Nat
  timestamp : Nat
  timestamp_result_code : TimestampResultCode
deriving DecidableEq, Repr

/-- A check_key_images response: the responding server's ledger height and
one result per queried image. -/
structure CheckKeyImagesResponse where
  num_blocks : Nat
  results : List KeyImageResult
deriving DecidableEq, Repr

/-- Modelled from the spec: one key image's result (spec 4.4 / 4.5). A spent
image carries the resolver's timestamp for its spending block; an unspent
image is never passed to the resolver and carries the fixed sentinel
(u64::MAX, TimestampFound). -/
def key_image_result (w : WatcherState) (s : Shard) (ki : KeyImage) : KeyImageResult :=
  match lookup_spent s ki with
  | none => ⟨ki, none, U64MAX, TimestampResultCode.TimestampFound⟩
  | some bi => ⟨ki, some bi, (resolve w bi).1, (resolve w bi).2⟩

/-- Modelled from the spec: the StoreServer's check_key_images (spec 4.4),
whose implementation is not in this repository slice. -/
def check_key_images (w : WatcherState) (s : Shard) (kis : List KeyImage) :
    CheckKeyImagesResponse :=
  ⟨s.num_blocks, kis.map (key_image_result w s)⟩

/-- The spending block indices every shard reports for one key image. -/
def shard_spends (shards : List Shard) (ki : KeyImage) : List Nat :=
  shards.filterMap (fun s => lookup_spent s ki)

/-- Modelled from the spec: the router's merged per-image result
(spec 4.6.2): the smallest non-none spent_at across shards, none when no
shard reports the image as spent. -/
def router_key_image_result (w : WatcherState) (shards : List Shard) (ki : KeyImage) :
    KeyImageResult :=
  match earliest (shard_spends shards ki) with
  | none => ⟨ki, none, U64MAX, TimestampResultCode.TimestampFound⟩
  | some bi => ⟨ki, some bi, (resolve w bi).1, (resolve w bi).2⟩

/-- The maximum num_blocks across a list of shard responses. -/
def max_num_blocks (resps : List CheckKeyImagesResponse) : Nat :=
  (resps.map (fun r => r.num_blocks)).foldr max 0

/-- Modelled from the spec: the RouterServer's check_key_images aggregation
(spec 4.6), whose implementation is not in this repository slice: every
shard is queried with the full image set; the merged num_blocks is the
maximum across the shard responses; per-image results take the earliest
reported spending block. -/
def router_check_key_images (w : WatcherState) (shards : List Shard) (kis : List KeyImage) :
    CheckKeyImagesResponse :=
  ⟨max_num_blocks (shards.map (fun s => check_key_images w s kis)),
   kis.map (router_key_image_result w shards)⟩

/-! ## Untrusted read path (spec 4.7) -/

/-- A transaction output, reduced to its public key (the only field the
queries compare). -/
structure TxOut where
  public_key : Nat
deriving DecidableEq, Repr

/-- The ledger as the read path sees it: block i holds its list of outputs. -/
structure Ledger where
  blocks : List (List TxOut)
deriving DecidableEq, Repr

/-- The ledger height. -/
def Ledger.num_blocks (l : Ledger) : Nat := l.blocks.length

/-- The total output count across the whole ledger. -/
def Ledger.global_txo_count (l : Ledger) : Nat := (l.blocks.map List.length).sum

/-- Every output of the ledger paired with its block index, starting the
block numbering at i. -/
def flatOutsAux : Nat → List (List TxOut) → List (TxOut × Nat)
  | _, [] => []
  | i, b :: bs => b.map (fun o => (o, i)) ++ flatOutsAux (i + 1) bs

/-- Every output of the ledger paired with its block index; position in this
list is the output's global index. -/
def flatOuts (l : Ledger) : List (TxOut × Nat) := flatOutsAux 0 l.blocks

/-- One result of the get_outputs (Merkle-proof material) query: the queried
global output index, and the output when the index is in range. -/
structure OutputResult where
  index : Nat
  output : Option TxOut
deriving DecidableEq, Repr

/-- A get_outputs response: accurate ledger metadata plus one result per
queried index. -/
structure GetOutputsResponse where
  num_blocks : Nat
  global_txo_count : Nat
  results : List OutputResult
deriving DecidableEq, Repr

/-- Modelled from the spec: the read path's get_outputs (spec 4.7), whose
implementation is not in this repository slice. Out-of-range indices yield
an absent per-item result, never an error. -/
def get_outputs (l : Ledger) (indices : List Nat) : GetOutputsResponse :=
  ⟨l.num_blocks, l.global_txo_count,
   indices.map (fun i => ⟨i, ((flatOuts l).get? i).map (fun p => p.1)⟩)⟩

/-- One block of a get_blocks response: index, outputs, cumulative output
count through this block, and the resolver's timestamp. -/
structure BlockResult where
  index : Nat
  outputs : List TxOut
  global_txo_count : Nat
  timestamp : Nat
  timestamp_result_code : TimestampResultCode
deriving DecidableEq, Repr

/-- A get_blocks response: ledger metadata plus the in-range requested
blocks. -/
structure GetBlocksResponse where
  num_blocks : Nat
  global_txo_count : Nat
  blocks : List BlockResult
deriving DecidableEq, Repr

/-- The block result for one index, none when the index is out of range. -/
def block_result (w : WatcherState) (l : Ledger) (i : Nat) : Option BlockResult :=
  match l.blocks.get? i with
  | none => none
  | some outs =>
    some ⟨i, outs, ((l.blocks.take (i + 1)).map List.length).sum,
          (resolve w i).1, (resolve w i).2⟩

/-- The block indices a list of half-open ranges asks for. -/
def expand_ranges (ranges : List (Nat × Nat)) : List Nat :=
  (ranges.map (fun r => List.range' r.1 (r.2 - r.1))).flatten

/-- Modelled from the spec: the read path's get_blocks (spec 4.7), whose
implementation is not in this repository slice. Out-of-range indices are
answered with absent data plus accurate metadata, never an error. -/
def get_blocks (w : WatcherState) (l : Ledger) (ranges : List (Nat × Nat)) :
    GetBlocksResponse :=
  ⟨l.num_blocks, l.global_txo_count, (expand_ranges ranges).filterMap (block_result w l)⟩

/-- mc_fog_api ledger TxOutResultCode, as the tests read it. -/
inductive TxOutResultCode
  | Found
  | NotFound
deriving DecidableEq, Repr

/-- One result of the get_tx_outs query, echoing the queried public key. -/
structure TxOutResult where
  tx_out_pubkey : Nat
  result_code : TxOutResultCode
  tx_out_global_index : Nat
  block_index : Nat
  timestamp : Nat
  timestamp_result_code : TimestampResultCode
deriving DecidableEq, Repr

/-- A get_tx_outs response. -/
structure GetTxOutsResponse where
  num_blocks : Nat
  results : List TxOutResult
deriving DecidableEq, Repr

/-- The global index and block index of the output with this public key. -/
def findTxOut (l : Ledger) (pk : Nat) : Option (Nat × Nat) :=
  ((flatOuts l).enum.find? (fun p => p.2.1.public_key == pk)).map (fun p => (p.1, p.2.2))

/-- Modelled from the spec: one get_tx_outs result (spec 4.7). A found
output reports its global index, owning block index and that block's
resolved timestamp; an absent key reports NotFound (its remaining fields
are not read by any caller in the tests). -/
def tx_out_result (w : WatcherState) (l : Ledger) (pk : Nat) : TxOutResult :=
  match findTxOut l pk with
  | none => ⟨pk, TxOutResultCode.NotFound, 0, 0, U64MAX, TimestampResultCode.Unavailable⟩
  | some gb => ⟨pk, TxOutResultCode.Found, gb.1, gb.2, (resolve w gb.2).1, (resolve w gb.2).2⟩

/-- Modelled from the spec: the read path's get_tx_outs (spec 4.7), whose
implementation is not in this repository slice. -/
def get_tx_outs (w : WatcherState) (l : Ledger) (pks : List Nat) : GetTxOutsResponse :=
  ⟨l.num_blocks, pks.map (tx_out_result w l)⟩

/-! ## Chain-id guard (spec 4.6.5 / 6) -/

/-- The mc_util_grpc chain-id mismatch message stem, as the tests format it. -/
def CHAIN_ID_MISMATCH_ERR_MSG : String := "chain-id mismatch:"

/-- The full status the server answers with on a chain-id mismatch: the
mismatch message naming the server's configured chain id in single quotes,
exactly as the tests assert it. -/
def chain_id_mismatch_status (server : String) : RpcStatus :=
  ⟨INVALID_ARGUMENT, CHAIN_ID_MISMATCH_ERR_MSG ++ " \x27" ++ server ++ "\x27"⟩

/-- Modelled from the spec: the server-side chain-id check (spec 6: the
chain identifier must match between client and server or the query is
rejected), whose implementation is not in this repository slice. A client
that sends no chain id skips the check — the key-image tests pass an empty
chain id and succeed. -/
def chain_id_check (server client : String) : Option RpcStatus :=
  if client ≠ "" ∧ client ≠ server then some (chain_id_mismatch_status server) else none

/-- Wraps a response in the chain-id guard: a mismatch surfaces to the
client as an EnclaveConnection Rpc RpcFailure carrying the mismatch status,
exactly the shape the tests match on. -/
def guarded {α : Type} (server client : String) (resp : α) : Except Error α :=
  match chain_id_check server client with
  | some st => Except.error (Error.Rpc (GrpcioError.RpcFailure st))
  | none => Except.ok resp

/-- get_outputs behind the chain-id guard. -/
def get_outputs_rpc (server client : String) (l : Ledger) (indices : List Nat) :
    Except Error GetOutputsResponse :=
  guarded server client (get_outputs l indices)

/-- get_blocks behind the chain-id guard. -/
def get_blocks_rpc (server client : String) (w : WatcherState) (l : Ledger)
    (ranges : List (Nat × Nat)) : Except Error GetBlocksResponse :=
  guarded server client (get_blocks w l ranges)

/-- Whether an EnclaveConnection error is the Rpc (transport) variant. -/
def Error.isRpc : Error → Bool
  | Error.Rpc _ => true
  | _ => false

/-! ## Concrete states mirroring the integration tests -/

/-- The watcher state of the key-image tests: one observer (id 0) signed
blocks 1..3 at times equal to the block index, a second observer (id 1)
signed block 1 late at 1593798844, and observer 0 last synced block 2. -/
def watcherA : WatcherState :=
  ⟨[⟨1, 0, 1⟩, ⟨2, 0, 2⟩, ⟨3, 0, 3⟩, ⟨1, 1, 1593798844⟩], [(0, 2)]⟩

/-- The shard of the key-image tests: images 0..1 spent in block 1, 3..5 in
block 2, 6..8 in block 3; ledger height 4. -/
def shardA : Shard :=
  ⟨[(0, 1), (1, 1), (3, 2), (4, 2), (5, 2), (6, 3), (7, 3), (8, 3)], 4⟩

/-- A fresher shard whose view of the ledger is taller. -/
def shardB : Shard := ⟨[(9, 4)], 7⟩

/-- The 4-block ledger of the blocks-api tests: 1, 2, 3 and 1 outputs. -/
def ledger4 : Ledger :=
  ⟨[[⟨100⟩], [⟨101⟩, ⟨102⟩], [⟨103⟩, ⟨104⟩, ⟨105⟩], [⟨106⟩]]⟩

/-- A watcher state holding a signed timestamp for the origin block, as the
test helper add_block_to_ledger records one for every block it appends. -/
def watcherOrigin : WatcherState := ⟨[⟨0, 0, 10⟩], [(0, 3)]⟩

/-! ## Helper lemmas -/

/-- earliest is none exactly on the empty list. -/
theorem earliest_eq_none : ∀ xs : List Nat, earliest xs = none ↔ xs = [] := by
  intro xs
  cases xs with
  | nil => simp [earliest]
  | cons t ts =>
    constructor
    · intro h
      unfold earliest at h
      rcases hts : earliest ts with _ | u <;> simp [hts] at h
    · intro h
      cases h

/-- A nonempty list has an earliest element. -/
theorem earliest_isSome_of_ne_nil (xs : List Nat) (h : xs ≠ []) :
    ∃ t, earliest xs = some t := by
  rcases hx : earliest xs with _ | t
  · exact absurd ((earliest_eq_none xs).mp hx) h
  · exact ⟨t, rfl⟩

/-- The earliest element is an element. -/
theorem earliest_mem : ∀ (xs : List Nat) (t : Nat), earliest xs = some t → t ∈ xs := by
  intro xs
  induction xs with
  | nil => intro t h; cases h
  | cons a l ih =>
    intro t h
    unfold earliest at h
    rcases hl : earliest l with _ | u
    · rw [hl] at h
      cases h
      exact List.mem_cons_self a l
    · rw [hl] at h
      cases h
      rcases min_choice a u with hm | hm
      · rw [hm]; exact List.mem_cons_self a l
      · rw [hm]; exact List.mem_cons_of_mem a (ih u hl)

/-- The earliest element is a lower bound. -/
theorem earliest_le : ∀ (xs : List Nat) (t : Nat), earliest xs = some t →
    ∀ x ∈ xs, t ≤ x := by
  intro xs
  induction xs with
  | nil => intro t h; cases h
  | cons a l ih =>
    intro t h x hx
    unfold earliest at h
    rcases hl : earliest l with _ | u
    · rw [hl] at h
      cases h
      have : l = [] := (earliest_eq_none l).mp hl
      subst this
      rcases List.mem_singleton.mp hx with rfl
      exact le_refl x
    · rw [hl] at h
      cases h
      rcases List.mem_cons.mp hx with rfl | hxl
      · exact min_le_left _ _
      · exact le_trans (min_le_right a u) (ih u hl x hxl)

/-- Every element is at most the max-fold. -/
theorem le_foldr_max : ∀ (xs : List Nat), ∀ x ∈ xs, x ≤ xs.foldr max 0 := by
  intro xs
  induction xs with
  | nil => intro x hx; cases hx
  | cons a l ih =>
    intro x hx
    rcases List.mem_cons.mp hx with rfl | hxl
    · exact le_max_left x (l.foldr max 0)
    · exact le_trans (ih x hxl) (le_max_right a (l.foldr max 0))

/-- The max-fold of a nonempty list is one of its elements. -/
theorem foldr_max_mem : ∀ (xs : List Nat), xs ≠ [] → xs.foldr max 0 ∈ xs := by
  intro xs
  induction xs with
  | nil => intro h; exact absurd rfl h
  | cons a l ih =>
    intro _
    cases l with
    | nil => simp
    | cons b m =>
      rcases max_choice a ((b :: m).foldr max 0) with hm | hm
      · rw [List.foldr_cons, hm]
        exact List.mem_cons_self a (b :: m)
      · rw [List.foldr_cons, hm]
        exact List.mem_cons_of_mem a (ih (by simp))

/-- The max-fold is monotone under pointwise growth. -/
theorem foldr_max_mono : ∀ {xs ys : List Nat},
    List.Forall₂ (fun a b => a ≤ b) xs ys →
    xs.foldr max 0 ≤ ys.foldr max 0 := by
  intro xs ys h
  induction h with
  | nil => exact le_refl 0
  | cons hab _ ih => exact max_le_max hab ih

/-- Forall₂ on shard heights transports along the num_blocks projection. -/
theorem forall₂_map_num_blocks : ∀ {shards shards' : List Shard},
    List.Forall₂ (fun s t => s.num_blocks ≤ t.num_blocks) shards shards' →
    List.Forall₂ (fun a b => a ≤ b)
      (shards.map Shard.num_blocks) (shards'.map Shard.num_blocks) := by
  intro shards shards' h
  induction h with
  | nil => exact List.Forall₂.nil
  | cons hab _ ih => exact List.Forall₂.cons hab ih

/-- The router's merged num_blocks is the max-fold of the shard heights. -/
theorem router_num_blocks_eq (w : WatcherState) (shards : List Shard) (kis : List KeyImage) :
    (router_check_key_images w shards kis).num_blocks
      = (shards.map Shard.num_blocks).foldr max 0 := by
  unfold router_check_key_images max_num_blocks
  rw [List.map_map]
  rfl

/-- A per-image result echoes the queried key image. -/
theorem key_image_result_key (w : WatcherState) (s : Shard) (ki : KeyImage) :
    (key_image_result w s ki).key_image = ki := by
  rcases h : lookup_spent s ki with _ | bi <;> simp [key_image_result, h]

/-- A merged per-image result echoes the queried key image. -/
theorem router_key_image_result_key (w : WatcherState) (shards : List Shard) (ki : KeyImage) :
    (router_key_image_result w shards ki).key_image = ki := by
  rcases h : earliest (shard_spends shards ki) with _ | bi <;>
    simp [router_key_image_result, h]

/-- A per-output result echoes the queried public key. -/
theorem tx_out_result_key (w : WatcherState) (l : Ledger) (pk : Nat) :
    (tx_out_result w l pk).tx_out_pubkey = pk := by
  rcases h : findTxOut l pk with _ | gb <;> simp [tx_out_result, h]

/-- Mapping a left inverse over a map collapses to the identity. -/
theorem map_proj_id {α β : Type} (f : α → β) (g : β → α) (h : ∀ a, g (f a) = a) :
    ∀ xs : List α, (xs.map f).map g = xs := by
  intro xs
  induction xs with
  | nil => rfl
  | cons a l ih => simp [h, ih]

/-- flatOutsAux has one entry per output. -/
theorem flatOutsAux_length : ∀ (bs : List (List TxOut)) (i : Nat),
    (flatOutsAux i bs).length = (bs.map List.length).sum := by
  intro bs
  induction bs with
  | nil => intro i; rfl
  | cons b bs ih => intro i; simp [flatOutsAux, ih]

/-- flatOuts has exactly global_txo_count entries. -/
theorem flatOuts_length (l : Ledger) : (flatOuts l).length = l.global_txo_count :=
  flatOutsAux_length l.blocks 0

/-- The chain-id check passes when the client sends the server's chain id. -/
theorem chain_id_check_self (chain : String) : chain_id_check chain chain = none := by
  unfold chain_id_check
  rw [if_neg]
  rintro ⟨_, h⟩
  exact h rfl

/-! ## C1 - C3: classifier theorems -/

/-- C1 counterexample: the claim says that for an Ake error caused by failed
attestation-evidence verification both should_retry and should_reattest are
false; the classifier returns should_reattest = true for every Ake error. -/
theorem c1_counterexample :
    ¬ (should_retry (Error.Ake AkeError.AttestationEvidenceVerification) = false
       ∧ should_reattest (Error.Ake AkeError.AttestationEvidenceVerification) = false) := by
  decide

/-- C1 amended: the full classifier matrix over every variant of the
connection error type. should_retry is false exactly for RESOURCE_EXHAUSTED
RpcFailures, attestation-evidence-verification Ake errors, InvalidUri and
Other; should_reattest is true exactly for Rpc, Ake and Cipher — in
particular it is true, not false, for attestation-evidence-verification
failures. -/
theorem c1_classifier_matrix :
    (∀ st : RpcStatus,
        should_retry (Error.Rpc (GrpcioError.RpcFailure st))
          = decide (st.code ≠ RESOURCE_EXHAUSTED)
      ∧ should_reattest (Error.Rpc (GrpcioError.RpcFailure st)) = true)
  ∧ (∀ g : GrpcioError, should_reattest (Error.Rpc g) = true)
  ∧ should_retry (Error.Rpc GrpcioError.Codec) = true
  ∧ should_retry (Error.Rpc GrpcioError.CallFailure) = true
  ∧ should_retry (Error.Rpc GrpcioError.RpcFinished) = true
  ∧ should_retry (Error.Rpc GrpcioError.RemoteStopped) = true
  ∧ should_retry (Error.Rpc GrpcioError.ShutdownFailed) = true
  ∧ should_retry (Error.Rpc GrpcioError.BindFail) = true
  ∧ should_retry (Error.Rpc GrpcioError.QueueShutdown) = true
  ∧ should_retry (Error.Rpc GrpcioError.GoogleAuthenticationFailed) = true
  ∧ should_retry (Error.Rpc GrpcioError.InvalidMetadata) = true
  ∧ (should_retry (Error.Ake AkeError.AttestationEvidenceVerification) = false
      ∧ should_reattest (Error.Ake AkeError.AttestationEvidenceVerification) = true)
  ∧ (should_retry (Error.Ake AkeError.OtherAkeVariant) = true
      ∧ should_reattest (Error.Ake AkeError.OtherAkeVariant) = true)
  ∧ (should_retry Error.Cipher = true ∧ should_reattest Error.Cipher = true)
  ∧ (should_retry Error.ProtoDecode = true ∧ should_reattest Error.ProtoDecode = false)
  ∧ (should_retry Error.InvalidUri = false ∧ should_reattest Error.InvalidUri = false)
  ∧ (∀ msg : String,
      should_retry (Error.Other msg) = false ∧ should_reattest (Error.Other msg) = false) :=
  ⟨fun _ => ⟨rfl, rfl⟩, fun g => by cases g <;> rfl,
   rfl, rfl, rfl, rfl, rfl, rfl, rfl, rfl, rfl,
   ⟨rfl, rfl⟩, ⟨rfl, rfl⟩, ⟨rfl, rfl⟩, ⟨rfl, rfl⟩, ⟨rfl, rfl⟩,
   fun _ => ⟨rfl, rfl⟩⟩

/-- C2 counterexample: should_reattest does not imply should_retry — the
attestation-evidence-verification Ake error has should_reattest = true and
should_retry = false, an outcome outside the claimed three-outcome set. -/
theorem c2_counterexample :
    ¬ (∀ e : Error, should_reattest e = true → should_retry e = true) := by
  intro h
  exact absurd (h (Error.Ake AkeError.AttestationEvidenceVerification) (by decide)) (by decide)

/-- C2 amended: reattest-without-retry is produced, and it is produced
exactly for attestation-evidence-verification Ake errors and for RpcFailures
whose status code is RESOURCE_EXHAUSTED; every other error's
(should_retry, should_reattest) pair lies in the claimed three-outcome set. -/
theorem c2_reattest_without_retry :
    ∀ e : Error,
      (should_reattest e = true ∧ should_retry e = false)
        ↔ (e = Error.Ake AkeError.AttestationEvidenceVerification
            ∨ ∃ st : RpcStatus,
                e = Error.Rpc (GrpcioError.RpcFailure st) ∧ st.code = RESOURCE_EXHAUSTED) := by
  intro e
  match e with
  | Error.Rpc (GrpcioError.RpcFailure st) =>
    by_cases h : st.code = RESOURCE_EXHAUSTED
    · simp [should_reattest, should_retry, h]
    · simp [should_reattest, should_retry, h]
  | Error.Rpc GrpcioError.Codec => simp [should_reattest, should_retry]
  | Error.Rpc GrpcioError.CallFailure => simp [should_reattest, should_retry]
  | Error.Rpc GrpcioError.RpcFinished => simp [should_reattest, should_retry]
  | Error.Rpc GrpcioError.RemoteStopped => simp [should_reattest, should_retry]
  | Error.Rpc GrpcioError.ShutdownFailed => simp [should_reattest, should_retry]
  | Error.Rpc GrpcioError.BindFail => simp [should_reattest, should_retry]
  | Error.Rpc GrpcioError.QueueShutdown => simp [should_reattest, should_retry]
  | Error.Rpc GrpcioError.GoogleAuthenticationFailed => simp [should_reattest, should_retry]
  | Error.Rpc GrpcioError.InvalidMetadata => simp [should_reattest, should_retry]
  | Error.Ake AkeError.AttestationEvidenceVerification => simp [should_reattest, should_retry]
  | Error.Ake AkeError.OtherAkeVariant => simp [should_reattest, should_retry]
  | Error.Cipher => simp [should_reattest, should_retry]
  | Error.InvalidUri => simp [should_reattest, should_retry]
  | Error.ProtoDecode => simp [should_reattest, should_retry]
  | Error.Other msg => simp [should_reattest, should_retry]

/-- C3: an Rpc transport failure is non-retryable exactly when it is an
RpcFailure whose status code is RESOURCE_EXHAUSTED; every other Rpc failure
has should_retry = true. -/
theorem c3_rpc_retry_iff_not_resource_exhausted :
    ∀ g : GrpcioError,
      (should_retry (Error.Rpc g) = false
        ↔ ∃ st : RpcStatus, g = GrpcioError.RpcFailure st ∧ st.code = RESOURCE_EXHAUSTED) := by
  intro g
  match g with
  | GrpcioError.RpcFailure st =>
    by_cases h : st.code = RESOURCE_EXHAUSTED
    · simp [should_retry, h]
    · simp [should_retry, h]
  | GrpcioError.Codec => simp [should_retry]
  | GrpcioError.CallFailure => simp [should_retry]
  | GrpcioError.RpcFinished => simp [should_retry]
  | GrpcioError.RemoteStopped => simp [should_retry]
  | GrpcioError.ShutdownFailed => simp [should_retry]
  | GrpcioError.BindFail => simp [should_retry]
  | GrpcioError.QueueShutdown => simp [should_retry]
  | GrpcioError.GoogleAuthenticationFailed => simp [should_retry]
  | GrpcioError.InvalidMetadata => simp [should_retry]

/-! ## C4 - C6: key-image query theorems -/

/-- C4: a key image never recorded as spent gets a result with
spent_at = none, timestamp = u64::MAX and result code TimestampFound, the
fixed sentinel of spec 4.5. -/
theorem c4_unspent_sentinel :
    ∀ (w : WatcherState) (s : Shard) (kis : List KeyImage) (ki : KeyImage),
      lookup_spent s ki = none →
      ∀ r ∈ (check_key_images w s kis).results, r.key_image = ki →
        r.spent_at = none ∧ r.timestamp = U64MAX
          ∧ r.timestamp_result_code = TimestampResultCode.TimestampFound := by
  intro w s kis ki h r hr hk
  simp only [check_key_images, List.mem_map] at hr
  obtain ⟨ki', _, rfl⟩ := hr
  rw [key_image_result_key] at hk
  subst hk
  simp [key_image_result, h]

/-- C4 witness: in the test shard, key image 19 was never spent and its
result is the sentinel. -/
theorem c4_unspent_sentinel_witness :
    (key_image_result watcherA shardA 19).spent_at = none
  ∧ (key_image_result watcherA shardA 19).timestamp = U64MAX
  ∧ (key_image_result watcherA shardA 19).timestamp_result_code
      = TimestampResultCode.TimestampFound :=
  c4_unspent_sentinel watcherA shardA [19] 19 (by decide)
    (key_image_result watcherA shardA 19) (by simp [check_key_images]) (by decide)

/-- C5 counterexample: the claim quantifies over every block index with a
signed timestamp on record, but the origin block resolves to
BlockIndexOutOfBounds even when a signature for block 0 is on record — as
the tests' own helper records one for every block it appends. -/
theorem c5_counterexample :
    sigsFor watcherOrigin 0 ≠ []
  ∧ (resolve watcherOrigin 0).2 ≠ TimestampResultCode.TimestampFound := by
  decide

/-- C5 amended: for every non-origin block index with at least one signed
timestamp on record, the resolver returns TimestampFound together with the
minimum signed_at among all observers that signed that block. -/
theorem c5_earliest_timestamp :
    ∀ (w : WatcherState) (bi : Nat), 0 < bi → sigsFor w bi ≠ [] →
      (resolve w bi).2 = TimestampResultCode.TimestampFound
      ∧ (resolve w bi).1 ∈ sigsFor w bi
      ∧ ∀ t ∈ sigsFor w bi, (resolve w bi).1 ≤ t := by
  intro w bi hbi hne
  obtain ⟨t, ht⟩ := earliest_isSome_of_ne_nil _ hne
  have hbz : ¬ bi = 0 := Nat.pos_iff_ne_zero.mp hbi
  have hres : resolve w bi = (t, TimestampResultCode.TimestampFound) := by
    unfold resolve
    rw [if_neg hbz, ht]
  rw [hres]
  exact ⟨rfl, earliest_mem _ _ ht, earliest_le _ _ ht⟩

/-- C5 witness: block 1 of the test watcher carries signatures at 1 and at
1593798844 from two observers; the resolver reports the earliest. -/
theorem c5_earliest_timestamp_witness :
    (resolve watcherA 1).2 = TimestampResultCode.TimestampFound
  ∧ (resolve watcherA 1).1 ∈ sigsFor watcherA 1
  ∧ ∀ t ∈ sigsFor watcherA 1, (resolve watcherA 1).1 ≤ t :=
  c5_earliest_timestamp watcherA 1 (by decide) (by decide)

/-- C6: the router's aggregated num_blocks dominates every contributing
shard's, equals one of them (the maximum) when any shard contributed, and
is monotone when every shard's view of the ledger grows. -/
theorem c6_router_num_blocks :
    (∀ (w : WatcherState) (shards : List Shard) (kis : List KeyImage),
        (∀ s ∈ shards, s.num_blocks ≤ (router_check_key_images w shards kis).num_blocks)
      ∧ (shards ≠ [] →
          (router_check_key_images w shards kis).num_blocks ∈ shards.map Shard.num_blocks))
  ∧ (∀ (w w' : WatcherState) (kis kis' : List KeyImage) (shards shards' : List Shard),
        List.Forall₂ (fun s t => s.num_blocks ≤ t.num_blocks) shards shards' →
        (router_check_key_images w shards kis).num_blocks
          ≤ (router_check_key_images w' shards' kis').num_blocks) := by
  constructor
  · intro w shards kis
    constructor
    · intro s hs
      rw [router_num_blocks_eq]
      exact le_foldr_max _ _ (List.mem_map_of_mem Shard.num_blocks hs)
    · intro hne
      rw [router_num_blocks_eq]
      exact foldr_max_mem _ (by simpa using hne)
  · intro w w' kis kis' shards shards' h
    rw [router_num_blocks_eq, router_num_blocks_eq]
    exact foldr_max_mono (forall₂_map_num_blocks h)

/-! ## C7 - C9: chain-id and untrusted read-path theorems -/

/-- C7 counterexample: a mismatched chain id does fail the query, but the
client-visible error is the Rpc (generic transport RpcFailure) variant of
the connection error type — which has no identity-mismatch variant at all —
distinguished only by its status message, contradicting the claim that the
failure is not a generic RPC failure. -/
theorem c7_counterexample :
    ¬ ∃ e : Error, get_outputs_rpc "local" "wrong" ledger4 [0] = Except.error e
        ∧ Error.isRpc e = false := by
  rintro ⟨e, he, hr⟩
  have h2 : get_outputs_rpc "local" "wrong" ledger4 [0]
      = Except.error (Error.Rpc (GrpcioError.RpcFailure (chain_id_mismatch_status "local"))) := by
    rfl
  rw [h2] at he
  injection he with h3
  subst h3
  exact absurd hr (by decide)

/-- C7 amended: a query with a nonempty chain id different from the server's
fails — no successful response — with an Rpc RpcFailure whose status
message is exactly the chain-id-mismatch message naming the server's chain
id (the failure is distinguishable by message, not by error variant). -/
theorem c7_chain_id_mismatch :
    ∀ (server client : String) (l : Ledger) (indices : List Nat),
      client ≠ "" → client ≠ server →
      get_outputs_rpc server client l indices
        = Except.error (Error.Rpc (GrpcioError.RpcFailure (chain_id_mismatch_status server)))
      ∧ (chain_id_mismatch_status server).message
          = CHAIN_ID_MISMATCH_ERR_MSG ++ " \x27" ++ server ++ "\x27" := by
  intro server client l indices h1 h2
  constructor
  · unfold get_outputs_rpc guarded chain_id_check
    rw [if_pos ⟨h1, h2⟩]
  · rfl

/-- C7 witness: the test's client chain id "wrong" against server chain id
"local". -/
theorem c7_chain_id_mismatch_witness :
    get_outputs_rpc "local" "wrong" ledger4 [0]
      = Except.error (Error.Rpc (GrpcioError.RpcFailure (chain_id_mismatch_status "local")))
    ∧ (chain_id_mismatch_status "local").message
        = CHAIN_ID_MISMATCH_ERR_MSG ++ " \x27" ++ "local" ++ "\x27" :=
  c7_chain_id_mismatch "local" "wrong" ledger4 [0] (by decide) (by decide)

/-- C8: untrusted read-path queries containing out-of-range indices still
succeed: get_outputs answers every queried index in order, with an absent
output for each out-of-range index and a present one for each in-range
index, and get_blocks returns only in-range blocks; both carry accurate
num_blocks and global_txo_count metadata. -/
theorem c8_out_of_range_ok :
    ∀ (chain : String) (w : WatcherState) (l : Ledger) (indices : List Nat)
      (ranges : List (Nat × Nat)),
      (get_outputs_rpc chain chain l indices = Except.ok (get_outputs l indices)
        ∧ (get_outputs l indices).num_blocks = l.num_blocks
        ∧ (get_outputs l indices).global_txo_count = l.global_txo_count
        ∧ (get_outputs l indices).results.map OutputResult.index = indices
        ∧ (∀ r ∈ (get_outputs l indices).results,
            l.global_txo_count ≤ r.index → r.output = none)
        ∧ (∀ r ∈ (get_outputs l indices).results,
            r.index < l.global_txo_count → r.output.isSome = true))
      ∧ (get_blocks_rpc chain chain w l ranges = Except.ok (get_blocks w l ranges)
        ∧ (get_blocks w l ranges).num_blocks = l.num_blocks
        ∧ (get_blocks w l ranges).global_txo_count = l.global_txo_count
        ∧ ∀ b ∈ (get_blocks w l ranges).blocks, b.index < l.num_blocks) := by
  intro chain w l indices ranges
  refine ⟨⟨?_, rfl, rfl, ?_, ?_, ?_⟩, ⟨?_, rfl, rfl, ?_⟩⟩
  · unfold get_outputs_rpc guarded
    rw [chain_id_check_self]
  · exact map_proj_id _ _ (fun i => rfl) indices
  · intro r hr hle
    simp only [get_outputs, List.mem_map] at hr
    obtain ⟨i, _, rfl⟩ := hr
    have hle1 : l.global_txo_count ≤ i := hle
    have hle2 : (flatOuts l).length ≤ i := le_trans (le_of_eq (flatOuts_length l)) hle1
    have hnone : (flatOuts l).get? i = none := List.get?_eq_none.mpr hle2
    show Option.map (fun p => p.1) ((flatOuts l).get? i) = none
    rw [hnone]
    rfl
  · intro r hr hlt
    simp only [get_outputs, List.mem_map] at hr
    obtain ⟨i, _, rfl⟩ := hr
    have hi : i < (flatOuts l).length := by
      rw [flatOuts_length]
      exact hlt
    rw [List.get?_eq_get hi]
    rfl
  · unfold get_blocks_rpc guarded
    rw [chain_id_check_self]
  · intro b hb
    simp only [get_blocks, List.mem_filterMap] at hb
    obtain ⟨i, _, hbi⟩ := hb
    unfold block_result at hbi
    rcases hg : l.blocks.get? i with _ | outs
    · rw [hg] at hbi
      cases hbi
    · rw [hg] at hbi
      injection hbi with h3
      subst h3
      obtain ⟨hlt, _⟩ := List.get?_eq_some.mp hg
      exact hlt

/-- C9: the origin block's timestamp resolves to BlockIndexOutOfBounds with
the u64::MAX sentinel — for the resolver directly, for any get_tx_outs
result found in block 0, and in the concrete get_blocks([0..1]) scenario on
the 4-block test ledger, which returns exactly one block of index 0 with
its single output. -/
theorem c9_origin_block_timestamp :
    (∀ w : WatcherState, resolve w 0 = (U64MAX, TimestampResultCode.BlockIndexOutOfBounds))
  ∧ (∀ (w : WatcherState) (l : Ledger) (pk gi : Nat),
      findTxOut l pk = some (gi, 0) →
      (tx_out_result w l pk).timestamp_result_code
        = TimestampResultCode.BlockIndexOutOfBounds)
  ∧ ((get_blocks watcherA ledger4 [(0, 1)]).blocks.length = 1
      ∧ ∀ b ∈ (get_blocks watcherA ledger4 [(0, 1)]).blocks,
          b.index = 0 ∧ b.outputs.length = 1 ∧ b.global_txo_count = 1
          ∧ b.timestamp_result_code = TimestampResultCode.BlockIndexOutOfBounds) := by
  refine ⟨fun w => rfl, ?_, by decide⟩
  intro w l pk gi h
  simp [tx_out_result, h, resolve]

/-- C10: every check_key_images and get_tx_outs response carries exactly one
result per queried element, in request order, echoing the queried key —
for the store, the router merge, and the untrusted tx-out path. -/
theorem c10_results_echo_queries :
    (∀ (w : WatcherState) (s : Shard) (kis : List KeyImage),
        (check_key_images w s kis).results.map KeyImageResult.key_image = kis)
  ∧ (∀ (w : WatcherState) (shards : List Shard) (kis : List KeyImage),
        (router_check_key_images w shards kis).results.map KeyImageResult.key_image = kis)
  ∧ (∀ (w : WatcherState) (l : Ledger) (pks : List Nat),
        (get_tx_outs w l pks).results.map TxOutResult.tx_out_pubkey = pks) :=
  ⟨fun w s kis => map_proj_id _ _ (key_image_result_key w s) kis,
   fun w shards kis => map_proj_id _ _ (router_key_image_result_key w shards) kis,
   fun w l pks => map_proj_id _ _ (tx_out_result_key w l) pks⟩

end MobileCoin
